/-
Verification of the NeuroDesk task-orchestration backend.

Shallow embedding of the core services of the repository:
  nexus_backend/app/services/intent_parser.py   (intent classification + business rules)
  nexus_backend/app/services/policy_service.py  (error sanitization)
  nexus_backend/app/services/budget_service.py  (budget checks)
  nexus_backend/app/services/orchestrator.py    (decomposition + dependency-ordered execution)
  nexus_backend/app/services/task_executor.py   (single-task execution)
  nexus_backend/app/agents/communication_agent.py and agents/base.py

Python strings are modelled as lists of characters, floats as rationals,
None-able values as Option, dictionaries as association lists, and the
external inference / agent backends as oracle functions supplied as
parameters.  A Python function that can raise is modelled with Except.
-/
import Mathlib

namespace NeuroDesk

/-! ## Python string primitives -/

/-- Characters of a Lean string literal; Python str values are modelled as
lists of characters. -/
def strL (s : String) : List Char := s.data

/-- Does the string start with the given pattern (Python str.startswith)? -/
def pyStartsWith : List Char → List Char → Bool
  | [], _ => true
  | _ :: _, [] => false
  | p :: ps, c :: cs => p == c && pyStartsWith ps cs

/-- Python substring containment: needle in hay. -/
def pyIn (needle : List Char) : List Char → Bool
  | [] => pyStartsWith needle []
  | c :: cs => pyStartsWith needle (c :: cs) || pyIn needle cs

/-- Python str.lower (ASCII case folding; the repository's keyword tables are
ASCII). -/
def pyLower (s : List Char) : List Char := s.map Char.toLower

/-- Python truthiness of an optional string: None and the empty string are
falsy. -/
def pyStrFalsy : Option (List Char) → Bool
  | none => true
  | some s => s.isEmpty

/-- Python truthiness of an optional float in boolean context: None and 0.0
are falsy. -/
def pyNumFalsy : Option ℚ → Bool
  | none => true
  | some c => c == 0

/-! ## Intent schema (app/schemas/intent.py)

IntentResult: intent label, confidence, optional entities / command /
parameters, requires_approval flag (default False), optional estimated cost,
optional risk level. -/

structure IntentResult where
  intent : List Char
  confidence : ℚ
  entities : Option (List (List Char × List Char)) := none
  command : Option (List Char) := none
  parameters : Option (List (List Char × List Char)) := none
  requires_approval : Bool := false
  estimated_cost : Option ℚ := none
  risk_level : Option (List Char) := none
deriving Repr, DecidableEq

/-! ## Business rules (intent_parser.apply_business_rules) -/

/-- Spending keyword table of Rule 3 of apply_business_rules. -/
def spendingKeywords : List (List Char) :=
  [strL "pay", strL "cost", strL "buy", strL "purchase",
   strL "spend", strL "price", strL "fee", strL "charge"]

/-- Destructive-action keyword table of Rule 4 of apply_business_rules. -/
def destructiveKeywords : List (List Char) :=
  [strL "delete", strL "remove", strL "destroy",
   strL "drop", strL "kill", strL "terminate"]

/-- The Python condition "result.estimated_cost and result.estimated_cost > 0"
(truthiness, then comparison): false for None and for 0.0. -/
def costTruthyPositive : Option ℚ → Bool
  | none => false
  | some c => !(c == 0) && decide (0 < c)

/-- intent_parser.apply_business_rules.  Rule 1 only logs.  Rule 2: a truthy,
positive estimated_cost forces requires_approval and raises an unset or "low"
risk to "medium".  Rule 3: a spending keyword in the lowercased message forces
requires_approval and backfills a falsy (None or 0.0) estimated_cost to 0.0.
Rule 4: a destructive keyword forces requires_approval and raises an unset,
"low" or "medium" risk to "high". -/
def apply_business_rules (result : IntentResult) (user_message : List Char) :
    IntentResult :=
  let ml := pyLower user_message
  let result :=
    if costTruthyPositive result.estimated_cost then
      { result with
        requires_approval := true
        risk_level :=
          if pyStrFalsy result.risk_level || result.risk_level == some (strL "low") then
            some (strL "medium")
          else result.risk_level }
    else result
  let result :=
    if spendingKeywords.any (fun k => pyIn k ml) then
      { result with
        requires_approval := true
        estimated_cost :=
          if pyNumFalsy result.estimated_cost then some 0
          else result.estimated_cost }
    else result
  let result :=
    if destructiveKeywords.any (fun k => pyIn k ml) then
      { result with
        requires_approval := true
        risk_level :=
          if pyStrFalsy result.risk_level ||
             (result.risk_level == some (strL "low") ||
              result.risk_level == some (strL "medium")) then
            some (strL "high")
          else result.risk_level }
    else result
  result

/-! ## Intent parsing with fallback (intent_parser.parse_intent)

The Groq and Gemini backends are modelled as oracles taking the user message
and the request context and returning some IntentResult on success or none on
any failure (network error, bad status, parse failure) -- the Python code
catches every exception of a backend call and moves on. -/

/-- Request context: an opaque JSON-like mapping, modelled as an association
list. -/
abbrev Ctx := List (List Char × List Char)

/-- The degraded result built when both backends fail (intent_parser lines
166-171); unspecified IntentResult fields keep their pydantic defaults. -/
def fallbackIntentResult : IntentResult :=
  { intent := strL "unknown"
    confidence := 0
    requires_approval := true
    risk_level := some (strL "high") }

/-- intent_parser.parse_intent: try Groq, on failure try Gemini, applying the
business-rule pass after a successful classification; when both fail return
the degraded fallback result.  Total: never raises to the caller. -/
def parse_intent (groq gemini : List Char → Ctx → Option IntentResult)
    (user_message : List Char) (context : Ctx) : IntentResult :=
  match groq user_message context with
  | some r => apply_business_rules r user_message
  | none =>
    match gemini user_message context with
    | some r => apply_business_rules r user_message
    | none => fallbackIntentResult

/-! ## Error sanitization (policy_service.PolicyService.sanitize_error_message)

The four re.sub passes are embedded as left-to-right scanners.  Each pattern
is deterministic despite regex backtracking: every quantified class in the
patterns excludes the character that must follow it, so the greedy maximal
run is the only viable choice. -/

/-- One re.sub scan: at each position try the matcher, which returns the
replacement text and the remainder after the match; on failure advance one
character.  Every successful match of the patterns below consumes at least
one character, so fuel = input length bounds the iterations exactly. -/
def reSub (m : List Char → Option (List Char × List Char)) :
    Nat → List Char → List Char
  | 0, s => s
  | _ + 1, [] => []
  | fuel + 1, c :: cs =>
    match m (c :: cs) with
    | some (repl, rest) => repl ++ reSub m fuel rest
    | none => c :: reSub m fuel cs

/-- The character class [A-Za-z0-9_-] of the JWT pattern. -/
def isWordDash (c : Char) : Bool := c.isAlphanum || c == '_' || c == '-'

/-- A regex word character (for the \b boundaries of the API-key pattern). -/
def isWordChar (c : Char) : Bool := c.isAlphanum || c == '_'

/-- The regex whitespace class \s. -/
def pySpace (c : Char) : Bool :=
  c == ' ' || c == '\t' || c == '\n' || c == '\r' ||
  c == (Char.ofNat 11) || c == (Char.ofNat 12)

/-- Matcher for [A-Za-z0-9_-]{20,}\.[A-Za-z0-9_-]{20,}\.[A-Za-z0-9_-]{20,}
(three dot-separated word-dash runs of at least 20), replaced by
[TOKEN_REDACTED]. -/
def tryJwt (s : List Char) : Option (List Char × List Char) :=
  let r1 := s.takeWhile isWordDash
  if r1.length < 20 then none else
  match s.drop r1.length with
  | '.' :: s2 =>
    let r2 := s2.takeWhile isWordDash
    if r2.length < 20 then none else
    match s2.drop r2.length with
    | '.' :: s4 =>
      let r3 := s4.takeWhile isWordDash
      if r3.length < 20 then none
      else some (strL "[TOKEN_REDACTED]", s4.drop r3.length)
    | _ => none
  | _ => none

/-- Scanner for \b[A-Za-z0-9]{32,}\b, replaced by [API_KEY_REDACTED].  A
match is a maximal alphanumeric run of length at least 32 whose neighbours
are not word characters; the flag carries whether the previous character was
a word character.  No match can start inside an alphanumeric run, so a
non-matching run is skipped whole. -/
def subApiKey : Nat → Bool → List Char → List Char
  | 0, _, s => s
  | _ + 1, _, [] => []
  | fuel + 1, prevWord, c :: cs =>
    if c.isAlphanum then
      let run := (c :: cs).takeWhile Char.isAlphanum
      let rest := (c :: cs).drop run.length
      if !prevWord && decide (32 ≤ run.length) &&
         (match rest with | [] => true | d :: _ => !isWordChar d) then
        strL "[API_KEY_REDACTED]" ++ subApiKey fuel true rest
      else
        run ++ subApiKey fuel true rest
    else
      c :: subApiKey fuel (isWordChar c) cs

/-- The ordered alternation (password|passwd|pwd|secret|token|key) of the
key/value pattern; Python tries alternatives left to right. -/
def pwKeywords : List (List Char) :=
  [strL "password", strL "passwd", strL "pwd",
   strL "secret", strL "token", strL "key"]

/-- Tail of the key/value pattern after the keyword: \s*[:=]\s*[^\s]+ ;
returns the remainder after the match. -/
def tryKvTail (s : List Char) : Option (List Char) :=
  match s.dropWhile pySpace with
  | c :: s2 =>
    if c == ':' || c == '=' then
      let s3 := s2.dropWhile pySpace
      let v := s3.takeWhile (fun d => !pySpace d)
      if decide (1 ≤ v.length) then some (s3.drop v.length) else none
    else none
  | [] => none

/-- Matcher for (?i)(password|passwd|pwd|secret|token|key)\s*[:=]\s*[^\s]+ ,
replaced by the keyword as matched (original case) followed by =[REDACTED]. -/
def tryPwAux : List (List Char) → List Char → Option (List Char × List Char)
  | [], _ => none
  | k :: ks, s =>
    if pyStartsWith k (pyLower s) then
      match tryKvTail (s.drop k.length) with
      | some rest => some (s.take k.length ++ strL "=[REDACTED]", rest)
      | none => tryPwAux ks s
    else tryPwAux ks s

def tryPw (s : List Char) : Option (List Char × List Char) :=
  tryPwAux pwKeywords s

/-- The alternation (postgresql|mysql|mongodb) of the connection-string
pattern. -/
def dbSchemes : List (List Char) :=
  [strL "postgresql", strL "mysql", strL "mongodb"]

/-- Matcher for (postgresql|mysql|mongodb)://[^\s]+ , replaced by
[DB_CONNECTION_REDACTED]. -/
def tryDbAux : List (List Char) → List Char → Option (List Char × List Char)
  | [], _ => none
  | k :: ks, s =>
    if pyStartsWith (k ++ strL "://") s then
      let rest0 := s.drop (k.length + 3)
      let v := rest0.takeWhile (fun d => !pySpace d)
      if decide (1 ≤ v.length) then
        some (strL "[DB_CONNECTION_REDACTED]", rest0.drop v.length)
      else tryDbAux ks s
    else tryDbAux ks s

def tryDb (s : List Char) : Option (List Char × List Char) :=
  tryDbAux dbSchemes s

/-- PolicyService.sanitize_error_message on the text of the given error
(the Python function receives an Exception and takes str(error); callers in
task_executor pass Exception(agent_result.error), whose str is the error
text itself).  Applies the four redaction passes in order, then collapses
any text still mentioning a traceback or exception to the generic internal
error message. -/
def sanitize_error_message (error_str : List Char) : List Char :=
  let s1 := reSub tryJwt error_str.length error_str
  let s2 := subApiKey s1.length false s1
  let s3 := reSub tryPw s2.length s2
  let s4 := reSub tryDb s3.length s3
  if pyIn (strL "traceback") (pyLower s4) || pyIn (strL "exception") (pyLower s4) then
    strL "An internal error occurred. Please try again or contact support."
  else s4

/-! ## Budget service (budget_service.BudgetService)

Transactions are modelled with their owner, status, cost and creation date;
dates compare lexicographically as in Python.  The daily and monthly limits
are the config.py defaults. -/

/-- Transaction status (models/transaction.py). -/
inductive TransactionStatus
  | pending | processing | success | failed | rolled_back
deriving Repr, DecidableEq

/-- A calendar date, compared lexicographically like a Python date. -/
structure PyDate where
  year : Int
  month : Int
  day : Int
deriving Repr, DecidableEq

def PyDate.le (a b : PyDate) : Bool :=
  decide (a.year < b.year) ||
  (a.year == b.year &&
    (decide (a.month < b.month) ||
     (a.month == b.month && decide (a.day ≤ b.day))))

/-- The slice of a transaction row read by the budget queries. -/
structure Transaction where
  created_by : Nat
  status : TransactionStatus
  cost : ℚ
  created_date : PyDate
deriving Repr, DecidableEq

/-- config.py defaults. -/
def DAILY_BUDGET_LIMIT : ℚ := 1000
def MONTHLY_BUDGET_LIMIT : ℚ := 30000

/-- BudgetService.get_spending: sum of the costs of the user's successful
transactions whose creation date lies in [start_date, end_date]. -/
def get_spending (db : List Transaction) (user_id : Nat)
    (start_date end_date : PyDate) : ℚ :=
  ((db.filter fun t =>
      t.created_by == user_id &&
      t.status == TransactionStatus.success &&
      PyDate.le start_date t.created_date &&
      PyDate.le t.created_date end_date).map Transaction.cost).sum

/-- The information content of a budget rejection message (the Python code
formats it into an f-string). -/
inductive BudgetError
  | invalid_period (period : List Char)
  | limit_exceeded (current requested limit : ℚ)
deriving Repr, DecidableEq

/-- date.today().replace(day=1). -/
def firstOfMonth (d : PyDate) : PyDate := { d with day := 1 }

/-- The shared tail of check_budget (lines 46-49): reject exactly when
current spending plus the requested amount exceeds the limit. -/
def budgetDecision (current amount limit : ℚ) : Bool × Option BudgetError :=
  if current + amount > limit then
    (false, some (BudgetError.limit_exceeded current amount limit))
  else (true, none)

/-- BudgetService.check_budget: resolve limit and window from the period
("daily" = today only, "monthly" = first of month through today, anything
else rejected), compute current spending over the window, then apply the
shared comparison. -/
def check_budget (db : List Transaction) (user_id : Nat) (amount : ℚ)
    (period : List Char) (today : PyDate) : Bool × Option BudgetError :=
  if period == strL "daily" then
    budgetDecision (get_spending db user_id today today) amount DAILY_BUDGET_LIMIT
  else if period == strL "monthly" then
    budgetDecision (get_spending db user_id (firstOfMonth today) today) amount
      MONTHLY_BUDGET_LIMIT
  else (false, some (BudgetError.invalid_period period))

/-! ## More Python string operations, for decomposition -/

/-- Python str.strip(): remove leading and trailing whitespace. -/
def pyStrip (s : List Char) : List Char :=
  ((s.dropWhile pySpace).reverse.dropWhile pySpace).reverse

/-- Python s.split(sep, 1) for a nonempty sep: the parts before and after
the first occurrence of sep, or none when sep does not occur (in which case
the Python list is just [s]). -/
def pySplitOnce (sep : List Char) : List Char → Option (List Char × List Char)
  | [] => none
  | c :: cs =>
    if pyStartsWith sep (c :: cs) then some ([], (c :: cs).drop sep.length)
    else
      match pySplitOnce sep cs with
      | some (a, b) => some (c :: a, b)
      | none => none

/-- Python s.replace(old, new) for a nonempty old: replace every
non-overlapping occurrence left to right.  Each step consumes at least one
character, so fuel = input length bounds the scan exactly. -/
def pyReplaceFuel (old new : List Char) : Nat → List Char → List Char
  | 0, s => s
  | _ + 1, [] => []
  | fuel + 1, c :: cs =>
    if pyStartsWith old (c :: cs) && !old.isEmpty then
      new ++ pyReplaceFuel old new fuel ((c :: cs).drop old.length)
    else
      c :: pyReplaceFuel old new fuel cs

def pyReplaceAll (old new s : List Char) : List Char :=
  pyReplaceFuel old new s.length s

/-! ## Intent decomposition (orchestrator.Orchestrator._decompose_intent) -/

/-- A parameter value in a subtask specification (string or boolean). -/
inductive PVal
  | s (v : List Char)
  | b (v : Bool)
deriving Repr, DecidableEq

/-- One subtask specification produced by _decompose_intent. -/
structure SubtaskSpec where
  title : List Char
  description : List Char
  agent_type : Option (List Char)
  dependencies : List Nat
  parameters : List (List Char × PVal) := []
deriving Repr, DecidableEq

/-- Orchestrator._decompose_intent: pattern-match the lowercased message
against the research-then-email template, else the research-then-compare
template, else fall back to a single generic subtask.  (The IntentResult
argument of the Python function is unused by its body.) -/
def decompose_intent (user_message : List Char) : List SubtaskSpec :=
  let ml := pyLower user_message
  let subtasks :=
    if pyIn (strL "research") ml &&
       (pyIn (strL "email") ml || pyIn (strL "draft") ml) then
      let research_query :=
        if pyIn (strL "and") ml then
          -- parts = user_message.split(" and ", 1); parts[0] is the whole
          -- message when the separator does not occur
          let part0 :=
            match pySplitOnce (strL " and ") user_message with
            | some (p0, _) => p0
            | none => user_message
          pyStrip (pyReplaceAll (strL "research") [] part0)
        else user_message
      let email_description :=
        let base := strL "Draft email based on research about: " ++ research_query
        if pyIn (strL "email") ml then
          match pySplitOnce (strL "email") user_message with
          | some (_, after) => base ++ strL " " ++ after
          | none => base
        else base
      [ { title := strL "Research Task"
          description := strL "Research: " ++ research_query
          agent_type := some (strL "research")
          dependencies := [] },
        { title := strL "Email Draft Task"
          description := email_description
          agent_type := some (strL "communication")
          dependencies := [0]
          parameters := [(strL "action", PVal.s (strL "draft")),
                         (strL "include_research", PVal.b true)] } ]
    else if pyIn (strL "research") ml &&
            (pyIn (strL "compare") ml || pyIn (strL "price") ml) then
      let query := pyStrip (pyReplaceAll (strL "prices") []
        (pyReplaceAll (strL "compare") []
          (pyReplaceAll (strL "research") [] user_message)))
      [ { title := strL "Product Research"
          description := strL "Research products: " ++ query
          agent_type := some (strL "research")
          dependencies := [] },
        { title := strL "Price Comparison"
          description := strL "Compare prices for: " ++ query
          agent_type := some (strL "purchase")
          dependencies := [0] } ]
    else []
  if subtasks.isEmpty then
    [ { title := strL "Execute Task"
        description := user_message
        agent_type := none
        dependencies := [] } ]
  else subtasks

/-! ## Orchestration loop (orchestrator.Orchestrator.orchestrate, step 5) -/

/-- Task status (models/task.py). -/
inductive TaskStatus
  | pending | in_progress | completed | failed | cancelled
deriving Repr, DecidableEq

/-- Outcome of one TaskExecutor.execute_task call as observed by the loop:
a normally returned task (status, error message, and the agent-result
summary extracted for downstream injection), or a raised exception. -/
inductive ExecOutcome
  | ok (status : TaskStatus) (error_message : Option (List Char)) (summary : List Char)
  | exn (message : List Char)
deriving Repr, DecidableEq

/-- The record stored in executed_results for one executed subtask. -/
structure SubtaskOutcome where
  status : TaskStatus
  summary : List Char
deriving Repr, DecidableEq

/-- Final state of one subtask row after the loop. -/
structure SubtaskState where
  status : TaskStatus
  error_message : Option (List Char)
deriving Repr, DecidableEq

structure LoopResult where
  states : List SubtaskState
  invoked : List Nat
  results : List (Nat × SubtaskOutcome)
  all_succeeded : Bool
deriving Repr, DecidableEq

/-- Orchestrate's execution loop (lines 135-192) over (index, dependencies)
pairs in creation order.  A subtask with a dependency index absent from
executed_results is marked failed with "Dependencies not met" and skipped --
execute_task is not called and nothing is recorded for it.  Otherwise
execute_task is called (tracked in invoked): a normal return is recorded in
executed_results keyed by the subtask index whatever its status, while a
raised exception marks the subtask failed with the exception text and
records nothing.  (The Python loop collects dependency_results while
checking; the mapping is only used when all dependencies are present, so
collecting it separately is observationally identical.) -/
def orchestrateSubtasks
    (exec : Nat → List (Nat × SubtaskOutcome) → ExecOutcome) :
    List (Nat × List Nat) → List (Nat × SubtaskOutcome) → Bool → LoopResult
  | [], results, ok =>
    { states := [], invoked := [], results := results, all_succeeded := ok }
  | (i, deps) :: rest, results, ok =>
    let dependencies_met := deps.all fun d => results.any fun p => p.1 == d
    if !dependencies_met then
      let r := orchestrateSubtasks exec rest results false
      { r with states :=
          { status := TaskStatus.failed
            error_message := some (strL "Dependencies not met") } :: r.states }
    else
      let dependency_results := deps.filterMap fun d =>
        (results.find? fun p => p.1 == d).map fun p => (d, p.2)
      match exec i dependency_results with
      | ExecOutcome.ok st err sm =>
        let results2 := results ++ [(i, { status := st, summary := sm })]
        let ok2 := ok && st == TaskStatus.completed
        let r := orchestrateSubtasks exec rest results2 ok2
        { r with
            states := { status := st, error_message := err } :: r.states
            invoked := i :: r.invoked }
      | ExecOutcome.exn m =>
        let r := orchestrateSubtasks exec rest results false
        { r with
            states := { status := TaskStatus.failed, error_message := some m } :: r.states
            invoked := i :: r.invoked }

/-- Parent task status and error after the loop (lines 194-199). -/
def parentOutcome (r : LoopResult) : TaskStatus × Option (List Char) :=
  if r.all_succeeded then (TaskStatus.completed, none)
  else (TaskStatus.failed, some (strL "One or more subtasks failed"))

/-- The (index, dependencies) pairs the loop receives for a spec list:
spec["index"] = i is set by enumeration in creation order. -/
def withIndices (specs : List SubtaskSpec) : List (Nat × List Nat) :=
  specs.enum.map fun p => (p.1, p.2.dependencies)

/-! ## Communication agent (agents/communication_agent.py, agents/base.py) -/

/-- An agent-task mapping (Dict[str, Any]) restricted to string values, as
read by estimate_cost_and_risk. -/
abbrev AgentTaskDict := List (List Char × List Char)

/-- dict.get(key): first binding of the key, if any. -/
def pyGet (d : AgentTaskDict) (k : List Char) : Option (List Char) :=
  (d.find? fun p => p.1 == k).map Prod.snd

/-- dict.get(key, default). -/
def pyGetD (d : AgentTaskDict) (k v : List Char) : List Char :=
  (pyGet d k).getD v

/-- The estimation dict returned by estimate_cost_and_risk:
cost, risk_level, requires_approval. -/
structure Estimation where
  cost : ℚ
  risk_level : List Char
  requires_approval : Bool
deriving Repr, DecidableEq

/-- CommunicationAgent.estimate_cost_and_risk: action = task.get("action",
"draft"); "send" yields cost 0, risk "medium", requires_approval True
(always); anything else yields cost 0, risk "low", requires_approval
False. -/
def communicationEstimate (task : AgentTaskDict) (context : Ctx) : Estimation :=
  let _ := context
  let action := pyGetD task (strL "action") (strL "draft")
  if action == strL "send" then
    { cost := 0, risk_level := strL "medium", requires_approval := true }
  else
    { cost := 0, risk_level := strL "low", requires_approval := false }

/-- AgentResult (agents/base.py dataclass), restricted to the fields the
claims inspect. -/
structure AgentResult where
  success : Bool
  error : Option (List Char) := none
  requires_approval : Bool := false
  estimated_cost : Option ℚ := none
  risk_level : Option (List Char) := none
deriving Repr, DecidableEq

/-- BaseAgent.run for the communication agent on the path where validation
passes and execute returns normally: the estimation computed before the
execute call is merged into the returned result (base.py lines 91-94), so
the caller sees the estimation's requires_approval. -/
def communicationRunMerge (task : AgentTaskDict) (context : Ctx)
    (executed : AgentResult) : AgentResult :=
  let estimation := communicationEstimate task context
  { executed with
      estimated_cost := some estimation.cost
      risk_level := some estimation.risk_level
      requires_approval := estimation.requires_approval }

/-! ## Task executor (Desk nexus_backend/app/services/task_executor.py)

The embedding follows Python name-resolution semantics: a statement that
reads a free name looks it up among the module-level bindings (none of the
names involved is a Python builtin) and raises NameError when it is absent;
a function-local name read before its assignment raises UnboundLocalError.
-/

/-- The names bound at module level in task_executor.py: its import
statements (lines 4-20) and module assignments.  Line 9 imports only Task
and TaskStatus from app.models.task, so TaskPriority is absent. -/
def taskExecutorGlobals : List String :=
  ["Dict", "Any", "Optional", "AsyncSession", "select", "UUID", "uuid4",
   "datetime", "Task", "TaskStatus", "Transaction", "TransactionType",
   "TransactionStatus", "AuditLog", "AuditEventType", "IntentRequest",
   "parse_intent", "BudgetService", "ApprovalService", "PolicyService",
   "event_service", "registry", "settings", "structlog", "logger",
   "TaskExecutor"]

inductive PyError
  | nameError (name : String)
  | unboundLocal (name : String)
deriving Repr, DecidableEq

/-- Reading a free name that is not a function local: Python falls back to
the module globals and raises NameError when the name is absent. -/
def resolveGlobal (n : String) : Except PyError Unit :=
  if taskExecutorGlobals.contains n then Except.ok ()
  else Except.error (PyError.nameError n)

/-- An error message persisted on a task; messages that interpolate runtime
values are modelled as constructors carrying those values. -/
inductive TaskErr
  | text (s : List Char)
  | budget (e : BudgetError)
  | agent_not_found (agent_type : List Char)
deriving Repr, DecidableEq

/-- The slice of a Task row manipulated by execute_task. -/
structure TaskState where
  status : TaskStatus
  error_message : Option TaskErr := none
deriving Repr, DecidableEq

/-- Keyword tables of TaskExecutor._determine_agent_type. -/
def researchIntentKeywords : List (List Char) :=
  [strL "research", strL "search", strL "find", strL "lookup"]
def communicationIntentKeywords : List (List Char) :=
  [strL "email", strL "send", strL "draft", strL "communicate", strL "message"]
def purchaseIntentKeywords : List (List Char) :=
  [strL "purchase", strL "buy", strL "product", strL "price", strL "compare"]

/-- TaskExecutor._determine_agent_type: keyword inspection over the lowered
intent label, then over the lowered command string (None treated as ""),
defaulting to "research". -/
def determine_agent_type (intent_result : IntentResult) : List Char :=
  let intent := pyLower intent_result.intent
  let command := pyLower (intent_result.command.getD [])
  if researchIntentKeywords.any (fun k => pyIn k intent) then strL "research"
  else if communicationIntentKeywords.any (fun k => pyIn k intent) then
    strL "communication"
  else if purchaseIntentKeywords.any (fun k => pyIn k intent) then
    strL "purchase"
  else if pyIn (strL "research") command then strL "research"
  else if pyIn (strL "email") command || pyIn (strL "send") command then
    strL "communication"
  else if pyIn (strL "purchase") command || pyIn (strL "buy") command then
    strL "purchase"
  else strL "research"

/-- Lines 269-282 of execute_task, the branch for an agent result with
success=False: the task is marked failed with the raw agent error text;
the sanitized form is computed and used only in the audit-log description.
Returns the updated task and the audit description suffix. -/
def agentFailureUpdate (task : TaskState) (agent_error : List Char) :
    TaskState × List Char :=
  let task2 := { task with
    status := TaskStatus.failed
    error_message := some (TaskErr.text agent_error) }
  let sanitized_error := sanitize_error_message agent_error
  (task2, sanitized_error)

/-- Outcome of the awaited agent.run call inside execute_task's try block. -/
inductive AgentRunOutcome
  | returns (r : AgentResult)
  | raises (message : List Char)
deriving Repr, DecidableEq

/-- Desk TaskExecutor.execute_task.  Oracles: the classifier backends, the
transaction table and current date (budget check), the registry contents,
and the agent.run outcome.  Step 2's Task(...) construction reads the free
name TaskPriority (line 60), which the module never binds, so every call
raises NameError there; the later steps are embedded faithfully behind that
resolution: the audit call after step 5 reads the unbound ip_address and
user_agent (line 144) and the agent_started event reads the local
agent_type before its line-169 assignment (line 164). -/
def execute_task
    (groq gemini : List Char → Ctx → Option IntentResult)
    (db : List Transaction) (today : PyDate)
    (registry_has : List Char → Bool)
    (agentOutcome : AgentRunOutcome)
    (user_id : Nat) (user_message : List Char) (context : Ctx) :
    Except PyError TaskState := do
  -- Step 1: parse intent (total, never raises)
  let intent_result := parse_intent groq gemini user_message context
  -- Step 2: Task(..., priority=TaskPriority.MEDIUM, ...)
  let _ ← resolveGlobal "TaskPriority"
  let task : TaskState := { status := TaskStatus.pending }
  -- Step 3: budget check when the estimated cost is truthy and positive
  if costTruthyPositive intent_result.estimated_cost then
    let amount := intent_result.estimated_cost.getD 0
    let checked := check_budget db user_id amount (strL "daily") today
    if !checked.1 then
      return { task with
        status := TaskStatus.failed
        error_message := checked.2.map TaskErr.budget }
  -- Step 4: approval gate -- status stays pending, no agent runs
  if intent_result.requires_approval then
    return { task with status := TaskStatus.pending }
  -- Step 5: mark in_progress; the audit call reads ip_address / user_agent
  let task := { task with status := TaskStatus.in_progress }
  let _ ← resolveGlobal "ip_address"
  let _ ← resolveGlobal "user_agent"
  -- agent_started event (line 164) reads agent_type before its assignment
  let _ ← (Except.error (PyError.unboundLocal "agent_type") : Except PyError Unit)
  let agent_type := determine_agent_type intent_result
  if agent_type.isEmpty then
    return { task with
      status := TaskStatus.failed
      error_message := some (TaskErr.text (strL "No suitable agent found for this intent")) }
  if !registry_has agent_type then
    return { task with
      status := TaskStatus.failed
      error_message := some (TaskErr.agent_not_found agent_type) }
  match agentOutcome with
  | AgentRunOutcome.returns r =>
    if r.success then
      return { task with status := TaskStatus.completed }
    else
      return (agentFailureUpdate task (r.error.getD (strL "None"))).1
  | AgentRunOutcome.raises e =>
    return { task with
      status := TaskStatus.failed
      error_message := some (TaskErr.text
        (strL "Agent execution error: " ++ sanitize_error_message e)) }

/-! ## Auxiliary notions and concrete instances used by the theorems -/

/-- The documented domain of IntentResult.risk_level (schemas/intent.py:
"low", "medium", "high", "critical", or unset). -/
def validRisk (o : Option (List Char)) : Prop :=
  o = none ∨ o = some (strL "low") ∨ o = some (strL "medium") ∨
  o = some (strL "high") ∨ o = some (strL "critical")

/-- The ordering low < medium < high < critical, with unset below all. -/
def riskRank : Option (List Char) → Nat
  | none => 0
  | some s =>
    if s == strL "low" then 1
    else if s == strL "medium" then 2
    else if s == strL "high" then 3
    else if s == strL "critical" then 4
    else 0

/-- A raw agent error carrying a password-style secret. -/
def c3RawError : List Char := strL "Connection failed: password=hunter2"

/-- A date used for the concrete budget scenario. -/
def c7Today : PyDate := { year := 2026, month := 10, day := 12 }

/-- A transaction table with one successful transaction of user 7, cost
950.0, created today. -/
def c7Db : List Transaction :=
  [ { created_by := 7, status := TransactionStatus.success,
      cost := 950, created_date := c7Today } ]

/-- A two-subtask graph where subtask 1 depends on subtask 0. -/
def c2Specs : List (Nat × List Nat) := [(0, []), (1, [0])]

/-- Execution oracle where subtask 0 returns normally with status failed
(its agent failed) and every other subtask completes. -/
def c2Exec : Nat → List (Nat × SubtaskOutcome) → ExecOutcome :=
  fun i _ =>
    if i == 0 then ExecOutcome.ok TaskStatus.failed (some (strL "agent failed")) []
    else ExecOutcome.ok TaskStatus.completed none (strL "done")

/-- A three-subtask chain: 0 <- 1 <- 2. -/
def c2ChainSpecs : List (Nat × List Nat) := [(0, []), (1, [0]), (2, [1])]

/-- Execution oracle that raises on every subtask. -/
def c2ExnExec : Nat → List (Nat × SubtaskOutcome) → ExecOutcome :=
  fun _ _ => ExecOutcome.exn (strL "boom")

/-- A communication-agent task mapping with action "send". -/
def c10Task : AgentTaskDict := [(strL "action", strL "send")]

/-- A plain classifier result: no cost, no risk, no approval. -/
def plainIntent : IntentResult := { intent := strL "greeting", confidence := 9/10 }

/-- A classifier result that is already elevated: approval required, risk
high. -/
def elevatedIntent : IntentResult :=
  { intent := strL "transfer", confidence := 4/5, requires_approval := true,
    risk_level := some (strL "high") }

/-! ## Theorems for the claims -/

/-- C1: refuted as stated -- code bug in the source.  Every invocation of
the Desk TaskExecutor.execute_task raises NameError before any step can
complete: the Task construction of step 2 (line 60) reads the free name
TaskPriority, which task_executor.py never binds (line 9 imports only Task
and TaskStatus).  In particular no path, including the one with no approval
required and a passing budget check, returns a Task. -/
theorem c1_execute_task_always_raises_name_error
    (groq gemini : List Char → Ctx → Option IntentResult)
    (db : List Transaction) (today : PyDate)
    (registry_has : List Char → Bool) (agentOutcome : AgentRunOutcome)
    (user_id : Nat) (user_message : List Char) (context : Ctx) :
    execute_task groq gemini db today registry_has agentOutcome
        user_id user_message context
      = Except.error (PyError.nameError "TaskPriority") := rfl

/-- C3: refuted as stated -- code bug in the source.  In the agent-failure
branch (task_executor lines 269-282) the persisted task error_message is the
raw agent error -- here still containing password=hunter2 -- while the
sanitized form (password=[REDACTED]) is computed and used only for the
audit-log description. -/
theorem c3_raw_error_persisted_unsanitized :
    (agentFailureUpdate { status := TaskStatus.in_progress } c3RawError).1.error_message
      = some (TaskErr.text c3RawError) ∧
    pyIn (strL "password=hunter2") c3RawError = true ∧
    sanitize_error_message c3RawError
      = strL "Connection failed: password=[REDACTED]" ∧
    (agentFailureUpdate { status := TaskStatus.in_progress } c3RawError).2
      = strL "Connection failed: password=[REDACTED]" := by
  refine ⟨rfl, by decide, by decide, by decide⟩

/-- C7: the daily (and monthly) budget check rejects exactly when the sum of
the user's successful-transaction costs in the period window plus the
requested amount strictly exceeds the configured limit; concretely, with
daily limit 1000.0 and prior successful spend 950.0 today, amount 100.0 is
rejected and amount 40.0 is allowed. -/
theorem c7_check_budget_threshold :
    (∀ (db : List Transaction) (user : Nat) (amount : ℚ) (today : PyDate),
      ((check_budget db user amount (strL "daily") today).1 = false ↔
        DAILY_BUDGET_LIMIT < get_spending db user today today + amount)) ∧
    (∀ (db : List Transaction) (user : Nat) (amount : ℚ) (today : PyDate),
      ((check_budget db user amount (strL "monthly") today).1 = false ↔
        MONTHLY_BUDGET_LIMIT <
          get_spending db user (firstOfMonth today) today + amount)) ∧
    (check_budget c7Db 7 100 (strL "daily") c7Today).1 = false ∧
    (check_budget c7Db 7 40 (strL "daily") c7Today).1 = true := by
  have hdd : (strL "daily" == strL "daily") = true := by decide
  have hmd : (strL "monthly" == strL "daily") = false := by decide
  have hmm : (strL "monthly" == strL "monthly") = true := by decide
  have hspend : get_spending c7Db 7 c7Today c7Today = 950 := by
    simp [get_spending, c7Db, c7Today, PyDate.le]
  refine ⟨?_, ?_, ?_, ?_⟩
  · intro db user amount today
    simp only [check_budget, hdd, if_true, budgetDecision]
    split <;> simp_all
  · intro db user amount today
    simp only [check_budget, hmd, hmm, Bool.false_eq_true, if_false, if_true,
      budgetDecision]
    split <;> simp_all
  · simp only [check_budget, hdd, if_true, budgetDecision, hspend]
    norm_num [DAILY_BUDGET_LIMIT]
  · simp only [check_budget, hdd, if_true, budgetDecision, hspend]
    norm_num [DAILY_BUDGET_LIMIT]

/-- C8: when both classifier backends fail on a message/context, parse_intent
returns the fixed degraded IntentResult (intent "unknown", confidence 0,
requires_approval true, risk "high"); being a total function of its oracles,
it never raises to its caller. -/
theorem c8_parse_intent_degrades
    (groq gemini : List Char → Ctx → Option IntentResult)
    (user_message : List Char) (context : Ctx)
    (hg : groq user_message context = none)
    (hm : gemini user_message context = none) :
    parse_intent groq gemini user_message context = fallbackIntentResult ∧
    (parse_intent groq gemini user_message context).intent = strL "unknown" ∧
    (parse_intent groq gemini user_message context).confidence = 0 ∧
    (parse_intent groq gemini user_message context).requires_approval = true ∧
    (parse_intent groq gemini user_message context).risk_level
      = some (strL "high") := by
  simp [parse_intent, hg, hm, fallbackIntentResult]

/-- Witness for C8 at a concrete message with both oracles failing. -/
theorem c8_witness :
    parse_intent (fun _ _ => none) (fun _ _ => none) (strL "hello") []
      = fallbackIntentResult :=
  (c8_parse_intent_degrades (fun _ _ => none) (fun _ _ => none)
    (strL "hello") [] rfl rfl).1

/-- C10: for every communication-agent task mapping whose action is "send",
estimate_cost_and_risk returns requires_approval = true, whatever the
context; and BaseAgent.run merges exactly this estimation into the result it
returns, overwriting whatever the execute step produced, for every possible
execute outcome. -/
theorem c10_send_always_requires_approval
    (task : AgentTaskDict) (context : Ctx)
    (h : pyGet task (strL "action") = some (strL "send")) :
    (communicationEstimate task context).requires_approval = true ∧
    ∀ r : AgentResult,
      (communicationRunMerge task context r).requires_approval = true := by
  have ha : pyGetD task (strL "action") (strL "draft") = strL "send" := by
    simp [pyGetD, h]
  constructor
  · simp [communicationEstimate, ha]
  · intro r
    simp [communicationRunMerge, communicationEstimate, ha]

/-- Witness for C10 at a concrete send task. -/
theorem c10_witness :
    (communicationEstimate c10Task []).requires_approval = true :=
  (c10_send_always_requires_approval c10Task [] (by decide)).1

/-- C5: a spending keyword in the lowercased message forces, after the
business-rule pass, requires_approval = true and a non-null estimated_cost;
an unset cost is backfilled to 0.0. -/
theorem c5_spending_keyword_forces_approval
    (result : IntentResult) (user_message : List Char)
    (h : (spendingKeywords.any fun k => pyIn k (pyLower user_message)) = true) :
    (apply_business_rules result user_message).requires_approval = true ∧
    (apply_business_rules result user_message).estimated_cost ≠ none ∧
    (result.estimated_cost = none →
      (apply_business_rules result user_message).estimated_cost = some 0) := by
  rcases hco : result.estimated_cost with _ | c <;>
    · simp only [apply_business_rules, h, hco, pyNumFalsy]
      split_ifs <;> simp_all

/-- C6: a destructive keyword in the lowercased message forces, after the
business-rule pass, requires_approval = true and risk_level "high" (or
"critical" when it already was "critical"), whatever the raw classifier
returned within the documented risk domain. -/
theorem c6_destructive_keyword_forces_high_risk
    (result : IntentResult) (user_message : List Char)
    (hdom : validRisk result.risk_level)
    (h : (destructiveKeywords.any fun k => pyIn k (pyLower user_message)) = true) :
    (apply_business_rules result user_message).requires_approval = true ∧
    (apply_business_rules result user_message).risk_level =
      some (if result.risk_level == some (strL "critical")
            then strL "critical" else strL "high") := by
  rcases hdom with hr | hr | hr | hr | hr <;>
    cases h2 : costTruthyPositive result.estimated_cost <;>
    cases h3 : (spendingKeywords.any fun k => pyIn k (pyLower user_message)) <;>
    · simp [apply_business_rules, h, h2, h3, hr, pyStrFalsy, pyNumFalsy] <;> decide

/-- Witness for C5 at a concrete plain result and spending message. -/
theorem c5_witness :
    (apply_business_rules plainIntent (strL "please buy milk")).requires_approval
      = true ∧
    (apply_business_rules plainIntent (strL "please buy milk")).estimated_cost
      = some 0 :=
  ⟨(c5_spending_keyword_forces_approval plainIntent (strL "please buy milk")
      (by decide)).1,
   (c5_spending_keyword_forces_approval plainIntent (strL "please buy milk")
      (by decide)).2.2 rfl⟩

/-- Witness for C6 at a plain low result and a destructive message. -/
theorem c6_witness :
    (apply_business_rules plainIntent (strL "delete my account")).requires_approval
      = true ∧
    (apply_business_rules plainIntent (strL "delete my account")).risk_level
      = some (if plainIntent.risk_level == some (strL "critical")
              then strL "critical" else strL "high") :=
  c6_destructive_keyword_forces_high_risk plainIntent (strL "delete my account")
    (Or.inl rfl) (by decide)

/-- C4: the business-rule pass is monotone on every IntentResult whose risk
lies in the documented domain: requires_approval is never lowered from true,
riskRank never decreases under low < medium < high < critical (unset at the
bottom), and a set risk_level is never cleared. -/
theorem c4_business_rules_monotone
    (result : IntentResult) (user_message : List Char)
    (hdom : validRisk result.risk_level) :
    (result.requires_approval = true →
      (apply_business_rules result user_message).requires_approval = true) ∧
    riskRank result.risk_level ≤
      riskRank (apply_business_rules result user_message).risk_level ∧
    (result.risk_level ≠ none →
      (apply_business_rules result user_message).risk_level ≠ none) := by
  rcases hdom with hr | hr | hr | hr | hr <;>
    cases h2 : costTruthyPositive result.estimated_cost <;>
    cases h3 : (spendingKeywords.any fun k => pyIn k (pyLower user_message)) <;>
    cases h4 : (destructiveKeywords.any fun k => pyIn k (pyLower user_message)) <;>
    · simp [apply_business_rules, h2, h3, h4, hr, pyStrFalsy, riskRank] <;> decide

/-- Witness for C4 at an already elevated result and a neutral message. -/
theorem c4_witness :
    (apply_business_rules elevatedIntent (strL "hello")).requires_approval = true ∧
    riskRank elevatedIntent.risk_level ≤
      riskRank (apply_business_rules elevatedIntent (strL "hello")).risk_level :=
  ⟨(c4_business_rules_monotone elevatedIntent (strL "hello")
      (Or.inr (Or.inr (Or.inr (Or.inl rfl))))).1 rfl,
   (c4_business_rules_monotone elevatedIntent (strL "hello")
      (Or.inr (Or.inr (Or.inr (Or.inl rfl))))).2.1⟩

/-- C9: a message whose lowercase form contains "research" together with
"email" or "draft" decomposes into exactly two subtasks -- a research
subtask with no dependencies, then a communication subtask depending
exactly on index 0 -- and decomposition never yields an empty list for any
message. -/
theorem c9_decomposition_shape
    (user_message : List Char)
    (hr : pyIn (strL "research") (pyLower user_message) = true)
    (he : (pyIn (strL "email") (pyLower user_message) ||
           pyIn (strL "draft") (pyLower user_message)) = true) :
    ((decompose_intent user_message).length = 2 ∧
     (decompose_intent user_message).map SubtaskSpec.agent_type
       = [some (strL "research"), some (strL "communication")] ∧
     (decompose_intent user_message).map SubtaskSpec.dependencies
       = [[], [0]]) ∧
    ∀ m : List Char, 1 ≤ (decompose_intent m).length := by
  constructor
  · simp [decompose_intent, hr, he]
  · intro m
    cases hA : (pyIn (strL "research") (pyLower m) &&
        (pyIn (strL "email") (pyLower m) || pyIn (strL "draft") (pyLower m))) <;>
    cases hB : (pyIn (strL "research") (pyLower m) &&
        (pyIn (strL "compare") (pyLower m) || pyIn (strL "price") (pyLower m))) <;>
      simp [decompose_intent, hA, hB]

/-- Witness for C9 at the concrete message of the spec scenario. -/
theorem c9_witness :
    (decompose_intent
        (strL "Research the best cloud providers and draft an email")).map
      SubtaskSpec.dependencies = [[], [0]] :=
  (c9_decomposition_shape
    (strL "Research the best cloud providers and draft an email")
    (by decide) (by decide)).1.2.2

/-- C2: refuted as stated.  With subtask 1 depending on subtask 0, when
subtask 0's execution returns normally with status failed (e.g. its agent
failed), its outcome is still recorded in executed_results, so subtask 1's
dependency check passes: execute_task IS invoked for subtask 1 and subtask 1
is not marked "dependencies not met" (here it completes). -/
theorem c2_counterexample :
    (orchestrateSubtasks c2Exec c2Specs [] true).states.head? =
      some { status := TaskStatus.failed,
             error_message := some (strL "agent failed") } ∧
    (orchestrateSubtasks c2Exec c2Specs [] true).invoked = [0, 1] ∧
    (orchestrateSubtasks c2Exec c2Specs [] true).states.get? 1 =
      some { status := TaskStatus.completed, error_message := none } := by
  decide

/-- C2 amended: the propagation as the code implements it.  In the chain
0 <- 1 <- 2, when subtask 0's execution raises an exception (so nothing is
recorded for index 0), subtask 1 is marked failed with "Dependencies not
met" and never invoked, and -- transitively, because a skipped subtask
records no result either -- so is subtask 2.  A dependency that merely
returns a failed task does not trigger this (see the counterexample). -/
theorem c2_amended_exception_propagates
    (exec : Nat → List (Nat × SubtaskOutcome) → ExecOutcome)
    (m : List Char) (h : exec 0 [] = ExecOutcome.exn m) :
    (orchestrateSubtasks exec c2ChainSpecs [] true).states.get? 1 =
      some { status := TaskStatus.failed,
             error_message := some (strL "Dependencies not met") } ∧
    1 ∉ (orchestrateSubtasks exec c2ChainSpecs [] true).invoked ∧
    (orchestrateSubtasks exec c2ChainSpecs [] true).states.get? 2 =
      some { status := TaskStatus.failed,
             error_message := some (strL "Dependencies not met") } ∧
    2 ∉ (orchestrateSubtasks exec c2ChainSpecs [] true).invoked := by
  simp [orchestrateSubtasks, c2ChainSpecs, h]

/-- Witness for the amended C2 at a concrete always-raising oracle. -/
theorem c2_amended_witness :
    1 ∉ (orchestrateSubtasks c2ExnExec c2ChainSpecs [] true).invoked ∧
    (orchestrateSubtasks c2ExnExec c2ChainSpecs [] true).states.get? 1 =
      some { status := TaskStatus.failed,
             error_message := some (strL "Dependencies not met") } :=
  ⟨(c2_amended_exception_propagates c2ExnExec (strL "boom") rfl).2.1,
   (c2_amended_exception_propagates c2ExnExec (strL "boom") rfl).1⟩

end NeuroDesk
